import Mathlib

/-!
Verification of the template execution engine of the `@tokenring-ai/template`
package against its specification.

The embedding models `src/TemplateService.ts` (the current engine) and the
registry operations of `src/TemplateRegistry.ts`:

* `TemplateChatRequest` is the directive a template function produces.
* `TemplateResult` is the recursive result record; the optional
  `nextTemplateResult` field is encoded by the two constructors `leaf`
  (no chained result) and `chain` (with a chained result).
* The mutable agent/chat-service environment is modelled by `AgentState`:
  the currently enabled tool set plus an event trace recording, in order,
  every system message, context reset, tool-set replacement and chat
  dispatch performed by the engine.
* `runTemplate` in `TemplateService.ts` is an async recursive procedure;
  it is embedded as the fuel-indexed function `runTemplateFuel`, whose
  single-frame body `runFrame` is a direct translation of the source.
  The public entry point `TemplateService.runTemplate` supplies fuel
  computed from the registry size; the fuel-adequacy theorem shows the
  `outOfFuel` marker is unreachable from the entry point, which is the
  termination argument of the source (visited-set bounded recursion).

JavaScript truthiness is translated faithfully: an empty *string* is falsy
(so `if (!templateName)` means `templateName = ""` and
`if (chatRequest.nextTemplate)` requires a nonempty name), while an empty
*array* is truthy (so `if (chatRequest.reset)` and
`if (chatRequest.activeTools && Array.isArray(...))` fire on `some []`).
-/

deriving instance DecidableEq for Except

namespace Template

/-- Context-reset kinds (`ResetWhat` in the agent package); opaque strings
at this layer. -/
abbrev ResetWhat := String

/-- The opaque chat request payload (`chatRequest.request` is forwarded
verbatim to `runChat`). -/
abbrev ChatRequest := String

/-- The opaque full chat response returned by `runChat`. -/
abbrev ChatResponse := String

/-- The directive a template function produces
(`TemplateChatRequest` in `src/TemplateService.ts`). -/
structure TemplateChatRequest where
  request : ChatRequest
  nextTemplate : Option String
  reset : Option (List ResetWhat)
  activeTools : Option (List String)
deriving DecidableEq

/-- The recursive result record (`TemplateResult` in
`src/TemplateService.ts`).  The optional `nextTemplateResult` field is
encoded by the constructor choice: `leaf` has no chained result, `chain`
carries one. -/
inductive TemplateResult : Type where
  | leaf (ok : Bool) (output : Option String) (response : Option ChatResponse)
      (error : Option String) : TemplateResult
  | chain (ok : Bool) (output : Option String) (response : Option ChatResponse)
      (error : Option String) (next : TemplateResult) : TemplateResult
deriving DecidableEq

/-- The `ok` field of a `TemplateResult`. -/
def TemplateResult.ok : TemplateResult → Bool
  | .leaf ok _ _ _ => ok
  | .chain ok _ _ _ _ => ok

/-- The `output` field of a `TemplateResult`. -/
def TemplateResult.output : TemplateResult → Option String
  | .leaf _ o _ _ => o
  | .chain _ o _ _ _ => o

/-- The `nextTemplateResult` field of a `TemplateResult`. -/
def TemplateResult.nextTemplateResult : TemplateResult → Option TemplateResult
  | .leaf _ _ _ _ => none
  | .chain _ _ _ _ r => some r

/-- `ok` of the result and, recursively, of every chained
`nextTemplateResult`. -/
def TemplateResult.allOk : TemplateResult → Bool
  | .leaf ok _ _ _ => ok
  | .chain ok _ _ _ r => ok && r.allOk

/-- Observable side effects of the engine on its environment, in order of
occurrence: `agent.systemMessage`, `agent.reset`,
`chatService.setEnabledTools`, and the `runChat` dispatch (recorded with
the tool set enabled at the moment of dispatch). -/
inductive Event : Type where
  | message (msg : String) : Event
  | resetIssued (kinds : List ResetWhat) : Event
  | toolsSet (tools : List String) : Event
  | chatCalled (request : ChatRequest) (enabledTools : List String) : Event
deriving DecidableEq

/-- The shared mutable environment visible to the engine: the enabled tool
set held by the chat service, plus the trace of events emitted so far. -/
structure AgentState where
  enabledTools : List String
  trace : List Event
deriving DecidableEq

/-- A template function: input string to directive; `Except.error`
models a thrown/rejected promise (`await template(input)` failing). -/
abbrev TemplateFunction := String → Except String TemplateChatRequest

/-- The external chat primitive `runChat`, as a function of the forwarded
request and of the tool set enabled at dispatch time; `Except.error`
models a rejected chat call. -/
abbrev ChatFn := ChatRequest → List String → Except String (String × ChatResponse)

/-- Outcomes of a frame: a thrown JavaScript `Error` with its message, or
the fuel-exhaustion marker of the embedding (shown unreachable from the
entry point). -/
inductive RunError : Type where
  | thrown (msg : String) : RunError
  | outOfFuel : RunError
deriving DecidableEq

/-- First-match lookup in an association list; `Map.get` /
`KeyedRegistry.getItemByName` (keys are unique in any state a `Map` can
reach, so first-match is exact). -/
def mapGet {α : Type} (m : List (String × α)) (k : String) : Option α :=
  match m with
  | [] => none
  | p :: rest => if p.1 = k then some p.2 else mapGet rest k

/-- `Map.has`: whether a key is present. -/
def mapHas {α : Type} (m : List (String × α)) (k : String) : Bool :=
  match m with
  | [] => false
  | p :: rest => if p.1 = k then true else mapHas rest k

/-- `Map.set`: replace in place if the key exists, else append. -/
def mapSet {α : Type} (m : List (String × α)) (k : String) (v : α) :
    List (String × α) :=
  match m with
  | [] => [(k, v)]
  | p :: rest => if p.1 = k then (k, v) :: rest else p :: mapSet rest k v

/-- `Map.delete`: remove the entry for a key. -/
def mapDelete {α : Type} (m : List (String × α)) (k : String) :
    List (String × α) :=
  match m with
  | [] => []
  | p :: rest => if p.1 = k then rest else p :: mapDelete rest k

/-- The template registry of `src/TemplateRegistry.ts`: a `Map` from
names to template functions. -/
structure TemplateRegistry where
  templates : List (String × TemplateFunction)

/-- `TemplateRegistry.register`: stores the function under the name,
overwriting silently.  (The source's `typeof template !== "function"`
check cannot fail in this typed model, where every stored value is a
function.) -/
def TemplateRegistry.register (r : TemplateRegistry) (name : String)
    (template : TemplateFunction) : TemplateRegistry :=
  ⟨mapSet r.templates name template⟩

/-- `TemplateRegistry.unregister`: removes the entry if present and
returns whether something was removed (`Map.delete`). -/
def TemplateRegistry.unregister (r : TemplateRegistry) (name : String) :
    TemplateRegistry × Bool :=
  (⟨mapDelete r.templates name⟩, mapHas r.templates name)

/-- `TemplateRegistry.get`: the function under the name, or `none`. -/
def TemplateRegistry.get (r : TemplateRegistry) (name : String) :
    Option TemplateFunction :=
  mapGet r.templates name

/-- The message emitted just before `agent.reset`
(`Resetting ... context for template: ...`; `join(",")`). -/
def resetMessage (templateName : String) (kinds : List ResetWhat) : String :=
  "Resetting " ++ String.intercalate "," kinds ++
    " context for template: " ++ templateName

/-- The message emitted after `setEnabledTools` narrows the tool set
(`join(", ")`). -/
def activeToolsMessage (tools : List String) : String :=
  "Set active tools for template: " ++ String.intercalate ", " tools

/-- The restoration notice; `originalTools.join(", ") || "none"` renders
an empty join as `none` (JavaScript `||` on the empty string). -/
def restoredMessage (originalTools : List String) : String :=
  "Restored original tools: " ++
    (if String.intercalate ", " originalTools = "" then "none"
     else String.intercalate ", " originalTools)

/-- The message of the circular-reference error. -/
def circularMessage (nextName : String) : String :=
  "Circular template reference detected: " ++ nextName ++
    " has already been run in this chain."

/-- Events of the optional context-reset step: `if (chatRequest.reset)`
fires whenever the field is present (a present empty array is truthy in
JavaScript), emitting the notice and then issuing `agent.reset`. -/
def resetEvents (templateName : String) (req : TemplateChatRequest) :
    List Event :=
  match req.reset with
  | none => []
  | some kinds =>
      [Event.message (resetMessage templateName kinds), Event.resetIssued kinds]

/-- Events of the optional tool-narrowing step: `setEnabledTools` then
the notice; fires whenever `activeTools` is present (empty array
included). -/
def activeEvents (req : TemplateChatRequest) : List Event :=
  match req.activeTools with
  | none => []
  | some tools => [Event.toolsSet tools, Event.message (activeToolsMessage tools)]

/-- The `finally` block of `runTemplate`: if tools were changed
(`activeTools` present), set the enabled tools back to the captured
`originalTools` and emit the restoration notice; otherwise pass the frame
result through unchanged. -/
def finishFrame (req : TemplateChatRequest) (originalTools : List String)
    (p : AgentState × Except RunError TemplateResult) :
    AgentState × Except RunError TemplateResult :=
  match req.activeTools with
  | none => p
  | some _ =>
      ({ enabledTools := originalTools,
         trace := p.1.trace ++
           [Event.toolsSet originalTools,
            Event.message (restoredMessage originalTools)] },
       p.2)

/-- The chat dispatch, result assembly and chaining steps of a frame
(`runChat` onwards in `runTemplate`), run from the state `s2` reached
after the optional reset and tool-narrowing steps; `recur` is the
recursive chain call.  (`outputChatAnalytics` is an external side effect
on the chat layer and is not part of the modelled state.) -/
def chainStep
    (recur : String → String → List String → AgentState →
      AgentState × Except RunError TemplateResult)
    (chat : ChatFn) (templateName input : String)
    (visitedTemplates : List String) (chatRequest : TemplateChatRequest)
    (s2 : AgentState) : AgentState × Except RunError TemplateResult :=
  let s3 : AgentState :=
    { s2 with trace :=
        s2.trace ++ [Event.chatCalled chatRequest.request s2.enabledTools] }
  match chat chatRequest.request s2.enabledTools with
  | Except.error msg => (s3, Except.error (RunError.thrown msg))
  | Except.ok (templateOutput, response) =>
    let nextName := chatRequest.nextTemplate.getD ""
    if nextName = "" then
      (s3, Except.ok (TemplateResult.leaf true (some templateOutput)
        (some response) none))
    else if nextName ∈ visitedTemplates then
      (s3, Except.error (RunError.thrown (circularMessage nextName)))
    else
      let s4 : AgentState :=
        { s3 with trace :=
            s3.trace ++ [Event.message ("Running next template: " ++ nextName)] }
      let p := recur nextName templateOutput
        (visitedTemplates ++ [templateName]) s4
      match p.2 with
      | Except.error e => (p.1, Except.error e)
      | Except.ok nextRes =>
          (p.1, Except.ok (TemplateResult.chain true (some templateOutput)
            (some response) none nextRes))

/-- One invocation frame of `TemplateService.runTemplate`
(`src/TemplateService.ts`), parameterised by the recursive call `recur`
used for the `nextTemplate` chain.  Direct translation:
validation, registry lookup, directive production, optional reset,
optional tool narrowing (capturing `originalTools`), then `chainStep`
(chat dispatch, result assembly, chaining), and the `finally`
restoration (`finishFrame`). -/
def runFrame
    (recur : String → String → List String → AgentState →
      AgentState × Except RunError TemplateResult)
    (chat : ChatFn) (reg : List (String × TemplateFunction))
    (templateName input : String) (visitedTemplates : List String)
    (s : AgentState) : AgentState × Except RunError TemplateResult :=
  if templateName = "" then
    (s, Except.error (RunError.thrown "Template name is required"))
  else
    match mapGet reg templateName with
    | none =>
        (s, Except.error (RunError.thrown ("Template not found: " ++ templateName)))
    | some template =>
      match template input with
      | Except.error msg => (s, Except.error (RunError.thrown msg))
      | Except.ok chatRequest =>
        let s1 : AgentState :=
          { enabledTools := s.enabledTools,
            trace := s.trace ++ resetEvents templateName chatRequest }
        let originalTools := s1.enabledTools
        let s2 : AgentState :=
          { enabledTools := chatRequest.activeTools.getD s1.enabledTools,
            trace := s1.trace ++ activeEvents chatRequest }
        finishFrame chatRequest originalTools
          (chainStep recur chat templateName input visitedTemplates chatRequest s2)

/-- The fuel-indexed recursion of `runTemplate`: each frame is `runFrame`
with the recursive chain call at one unit less fuel. -/
def runTemplateFuel (chat : ChatFn) (reg : List (String × TemplateFunction)) :
    Nat → String → String → List String → AgentState →
    AgentState × Except RunError TemplateResult
  | 0, _, _, _, s => (s, Except.error RunError.outOfFuel)
  | fuel + 1, templateName, input, visitedTemplates, s =>
      runFrame
        (fun n i v st => runTemplateFuel chat reg fuel n i v st)
        chat reg templateName input visitedTemplates s

/-- The template service of `src/TemplateService.ts`: holds the keyed
registry of template functions. -/
structure TemplateService where
  templates : List (String × TemplateFunction)

/-- Fuel sufficient for any chain over this registry: the visited-set can
accumulate at most the distinct registry keys, so chain depth is bounded
by the registry size. -/
def TemplateService.fuelBound (svc : TemplateService) : Nat :=
  2 * svc.templates.length + 1

/-- The public entry point `TemplateService.runTemplate` with the default
empty `visitedTemplates`. -/
def TemplateService.runTemplate (svc : TemplateService) (chat : ChatFn)
    (templateName input : String) (s : AgentState) :
    AgentState × Except RunError TemplateResult :=
  runTemplateFuel chat svc.templates svc.fuelBound templateName input [] s

/-- Number of registry keys not yet visited; the decreasing quantity of
the chain recursion. -/
def freshCount (keys v : List String) : Nat :=
  (keys.dedup.filter (fun k => decide (k ∉ v))).length

/-- Termination measure of a frame `(templateName, visited)`: twice the
unvisited-key count, plus one if the current name is itself already
visited (a re-entered name can occur at most once in a row before the
cycle check fires). -/
def chainMeasure (keys : List String) (templateName : String)
    (v : List String) : Nat :=
  2 * freshCount keys v + (if templateName ∈ v then 1 else 0)

/-! ### Frame unfolding lemmas -/

theorem runTemplateFuel_succ (chat : ChatFn) (reg : List (String × TemplateFunction))
    (fuel : Nat) (templateName input : String) (v : List String) (s : AgentState) :
    runTemplateFuel chat reg (fuel + 1) templateName input v s =
      runFrame (fun a b c st => runTemplateFuel chat reg fuel a b c st)
        chat reg templateName input v s := rfl

theorem finishFrame_snd (req : TemplateChatRequest) (o : List String)
    (p : AgentState × Except RunError TemplateResult) :
    (finishFrame req o p).2 = p.2 := by
  unfold finishFrame; cases req.activeTools <;> rfl

theorem finishFrame_of_none (req : TemplateChatRequest) (o : List String)
    (p : AgentState × Except RunError TemplateResult)
    (h : req.activeTools = none) : finishFrame req o p = p := by
  unfold finishFrame; rw [h]

theorem finishFrame_of_some (req : TemplateChatRequest) (o : List String)
    (p : AgentState × Except RunError TemplateResult) (tools : List String)
    (h : req.activeTools = some tools) :
    finishFrame req o p =
      ({ enabledTools := o,
         trace := p.1.trace ++
           [Event.toolsSet o, Event.message (restoredMessage o)] }, p.2) := by
  unfold finishFrame; rw [h]

/-- Unfolding a frame whose validation, lookup and directive production
succeed: the result is the `finally` wrapper around the chat/chain core,
run from the state with the reset and tool-narrowing events applied. -/
theorem runTemplateFuel_frame (chat : ChatFn) (reg : List (String × TemplateFunction))
    (fuel : Nat) {templateName : String} (input : String) (v : List String)
    (s : AgentState) {f : TemplateFunction} {req : TemplateChatRequest}
    (hname : ¬ templateName = "") (hf : mapGet reg templateName = some f)
    (hok : f input = Except.ok req) :
    runTemplateFuel chat reg (fuel + 1) templateName input v s =
      finishFrame req s.enabledTools
        (chainStep (fun a b c st => runTemplateFuel chat reg fuel a b c st)
          chat templateName input v req
          { enabledTools := req.activeTools.getD s.enabledTools,
            trace := (s.trace ++ resetEvents templateName req) ++ activeEvents req }) := by
  rw [runTemplateFuel_succ]
  unfold runFrame
  rw [if_neg hname, hf]
  dsimp only
  rw [hok]

/-! ### Case lemmas for the chat/chain core -/

theorem chainStep_chatError
    (recur : String → String → List String → AgentState →
      AgentState × Except RunError TemplateResult)
    (chat : ChatFn) (templateName input : String) (v : List String)
    (req : TemplateChatRequest) (s2 : AgentState) (msg : String)
    (hchat : chat req.request s2.enabledTools = Except.error msg) :
    chainStep recur chat templateName input v req s2 =
      ({ s2 with trace :=
           s2.trace ++ [Event.chatCalled req.request s2.enabledTools] },
       Except.error (RunError.thrown msg)) := by
  unfold chainStep; rw [hchat]

theorem chainStep_leaf
    (recur : String → String → List String → AgentState →
      AgentState × Except RunError TemplateResult)
    (chat : ChatFn) (templateName input : String) (v : List String)
    (req : TemplateChatRequest) (s2 : AgentState) (out resp : String)
    (hchat : chat req.request s2.enabledTools = Except.ok (out, resp))
    (hnext : req.nextTemplate.getD "" = "") :
    chainStep recur chat templateName input v req s2 =
      ({ s2 with trace :=
           s2.trace ++ [Event.chatCalled req.request s2.enabledTools] },
       Except.ok (TemplateResult.leaf true (some out) (some resp) none)) := by
  unfold chainStep; rw [hchat]; simp only [hnext, if_pos]

theorem chainStep_circular
    (recur : String → String → List String → AgentState →
      AgentState × Except RunError TemplateResult)
    (chat : ChatFn) (templateName input : String) (v : List String)
    (req : TemplateChatRequest) (s2 : AgentState) (out resp : String)
    (nx : String)
    (hchat : chat req.request s2.enabledTools = Except.ok (out, resp))
    (hnext : req.nextTemplate.getD "" = nx) (hnx : ¬ nx = "")
    (hmem : nx ∈ v) :
    chainStep recur chat templateName input v req s2 =
      ({ s2 with trace :=
           s2.trace ++ [Event.chatCalled req.request s2.enabledTools] },
       Except.error (RunError.thrown (circularMessage nx))) := by
  unfold chainStep
  rw [hchat]
  simp only [hnext, if_neg hnx, if_pos hmem]

theorem chainStep_chain
    (recur : String → String → List String → AgentState →
      AgentState × Except RunError TemplateResult)
    (chat : ChatFn) (templateName input : String) (v : List String)
    (req : TemplateChatRequest) (s2 : AgentState) (out resp : String)
    (nx : String)
    (hchat : chat req.request s2.enabledTools = Except.ok (out, resp))
    (hnext : req.nextTemplate.getD "" = nx) (hnx : ¬ nx = "")
    (hmem : ¬ nx ∈ v) :
    chainStep recur chat templateName input v req s2 =
      ((recur nx out (v ++ [templateName])
          { s2 with trace :=
              (s2.trace ++ [Event.chatCalled req.request s2.enabledTools]) ++
                [Event.message ("Running next template: " ++ nx)] }).1,
        match (recur nx out (v ++ [templateName])
          { s2 with trace :=
              (s2.trace ++ [Event.chatCalled req.request s2.enabledTools]) ++
                [Event.message ("Running next template: " ++ nx)] }).2 with
        | Except.error e => Except.error e
        | Except.ok nextRes =>
            Except.ok (TemplateResult.chain true (some out) (some resp) none nextRes)) := by
  unfold chainStep
  rw [hchat]
  simp only [hnext, if_neg hnx, if_neg hmem]
  cases (recur nx out (v ++ [templateName])
      { s2 with trace :=
          (s2.trace ++ [Event.chatCalled req.request s2.enabledTools]) ++
            [Event.message ("Running next template: " ++ nx)] }).2 <;> rfl

theorem mapGet_mem {α : Type} {m : List (String × α)} {k : String} {f : α}
    (h : mapGet m k = some f) : k ∈ m.map Prod.fst := by
  induction m with
  | nil => simp [mapGet] at h
  | cons p rest ih =>
    rw [mapGet] at h
    by_cases hp : p.1 = k
    · simp [hp]
    · rw [if_neg hp] at h
      simp [ih h]

/-! ### State preservation across a run -/

theorem chainStep_enabledTools
    (recur : String → String → List String → AgentState →
      AgentState × Except RunError TemplateResult)
    (chat : ChatFn) (templateName input : String) (v : List String)
    (req : TemplateChatRequest) (s2 : AgentState)
    (hrec : ∀ a b c st, ((recur a b c st).1).enabledTools = st.enabledTools) :
    ((chainStep recur chat templateName input v req s2).1).enabledTools =
      s2.enabledTools := by
  unfold chainStep
  cases chat req.request s2.enabledTools with
  | error msg => rfl
  | ok pr =>
    obtain ⟨out, resp⟩ := pr
    dsimp only
    split
    · rfl
    · split
      · rfl
      · split
        · rw [hrec]
        · rw [hrec]

theorem chainStep_trace
    (recur : String → String → List String → AgentState →
      AgentState × Except RunError TemplateResult)
    (chat : ChatFn) (templateName input : String) (v : List String)
    (req : TemplateChatRequest) (s2 : AgentState)
    (hrec : ∀ a b c st, st.trace <+: ((recur a b c st).1).trace) :
    (s2.trace ++ [Event.chatCalled req.request s2.enabledTools]) <+:
      ((chainStep recur chat templateName input v req s2).1).trace := by
  unfold chainStep
  cases chat req.request s2.enabledTools with
  | error msg => exact List.prefix_refl _
  | ok pr =>
    obtain ⟨out, resp⟩ := pr
    dsimp only
    split
    · exact List.prefix_refl _
    · split
      · exact List.prefix_refl _
      · split
        · dsimp only
          refine List.IsPrefix.trans ?_ (hrec _ _ _ _)
          exact List.prefix_append _ _
        · dsimp only
          refine List.IsPrefix.trans ?_ (hrec _ _ _ _)
          exact List.prefix_append _ _

/-- The trace only grows: a run appends events after the entry trace. -/
theorem runTemplateFuel_trace (chat : ChatFn)
    (reg : List (String × TemplateFunction)) :
    ∀ (fuel : Nat) (templateName input : String) (v : List String) (s : AgentState),
      s.trace <+: ((runTemplateFuel chat reg fuel templateName input v s).1).trace := by
  intro fuel
  induction fuel with
  | zero => intro tn i v s; exact List.prefix_refl _
  | succ fuel ih =>
    intro tn i v s
    by_cases hname : tn = ""
    · rw [runTemplateFuel_succ]; unfold runFrame; rw [if_pos hname]
    · cases hget : mapGet reg tn with
      | none =>
          rw [runTemplateFuel_succ]; unfold runFrame; rw [if_neg hname, hget]
      | some f =>
        cases htpl : f i with
        | error msg =>
            rw [runTemplateFuel_succ]; unfold runFrame; rw [if_neg hname, hget]
            dsimp only; rw [htpl]
        | ok req =>
          rw [runTemplateFuel_frame chat reg fuel i v s hname hget htpl]
          have hpre : s.trace <+:
              ((chainStep (fun a b c st => runTemplateFuel chat reg fuel a b c st)
                chat tn i v req
                { enabledTools := req.activeTools.getD s.enabledTools,
                  trace := (s.trace ++ resetEvents tn req) ++ activeEvents req }).1).trace := by
            refine List.IsPrefix.trans ?_ (chainStep_trace _ chat tn i v req _
              (fun a b c st => ih a b c st))
            refine List.IsPrefix.trans ?_ (List.prefix_append _ _)
            exact (List.prefix_append _ _).trans (List.prefix_append _ _)
          cases hat : req.activeTools with
          | none =>
              rw [finishFrame_of_none _ _ _ hat]
              rw [hat] at hpre
              exact hpre
          | some tools =>
              rw [finishFrame_of_some _ _ _ _ hat]
              rw [hat] at hpre
              exact hpre.trans (List.prefix_append _ _)

/-! ### Termination: the measure decreases along the chain -/

theorem freshCount_append_of_mem {keys v : List String} {t : String}
    (htv : t ∈ v) : freshCount keys (v ++ [t]) = freshCount keys v := by
  unfold freshCount
  congr 1
  apply List.filter_congr
  intro k _
  apply decide_eq_decide.mpr
  simp only [List.mem_append, List.mem_singleton, not_or]
  constructor
  · intro h; exact h.1
  · intro h
    refine ⟨h, ?_⟩
    intro hkt
    exact h (hkt ▸ htv)

theorem freshCount_append_of_not_mem {keys v : List String} {t : String}
    (hk : t ∈ keys) (htv : t ∉ v) :
    freshCount keys (v ++ [t]) + 1 = freshCount keys v := by
  classical
  unfold freshCount
  have hsplit : (keys.dedup.filter (fun k => decide (k ∉ v ++ [t]))) =
      ((keys.dedup.filter (fun k => decide (k ∉ v))).filter
        (fun k => decide (k ≠ t))) := by
    rw [List.filter_filter]
    apply List.filter_congr
    intro k _
    apply Bool.eq_iff_iff.mpr
    simp only [List.mem_append, List.mem_singleton, not_or, ne_eq,
      decide_eq_true_eq, Bool.and_eq_true]
    exact and_comm
  rw [hsplit]
  set l := keys.dedup.filter (fun k => decide (k ∉ v)) with hl
  have hnd : l.Nodup := (List.nodup_dedup keys).filter _
  have htl : t ∈ l := by
    rw [hl]
    apply List.mem_filter.mpr
    exact ⟨List.mem_dedup.mpr hk, by simpa using htv⟩
  have herase : l.filter (fun k => decide (k ≠ t)) = l.erase t := by
    rw [hnd.erase_eq_filter]
    apply List.filter_congr
    intro k _
    apply Bool.eq_iff_iff.mpr
    simp [bne_iff_ne]
  rw [herase, List.length_erase_of_mem htl]
  have hpos : 0 < l.length := List.length_pos_of_mem htl
  omega

theorem chainMeasure_decrease {keys : List String} {t nx : String}
    {v : List String} (hk : t ∈ keys) (hnx : nx ∉ v) :
    chainMeasure keys nx (v ++ [t]) < chainMeasure keys t v := by
  unfold chainMeasure
  by_cases htv : t ∈ v
  · rw [freshCount_append_of_mem htv, if_pos htv]
    have h2 : (if nx ∈ v ++ [t] then 1 else 0) = 0 := by
      apply if_neg
      simp only [List.mem_append, List.mem_singleton, not_or]
      exact ⟨hnx, fun h => hnx (h ▸ htv)⟩
    rw [h2]
    omega
  · have hdec := freshCount_append_of_not_mem hk htv
    rw [if_neg htv]
    have h2 : (if nx ∈ v ++ [t] then 1 else 0) ≤ 1 := by
      split <;> omega
    omega

/-- Fuel adequacy: with fuel above the measure, the fuel-exhaustion
marker is unreachable — the recursion bottoms out through the visited-set
cycle check, never through the fuel. -/
theorem runTemplateFuel_ne_outOfFuel (chat : ChatFn)
    (reg : List (String × TemplateFunction)) :
    ∀ (fuel : Nat) (templateName input : String) (v : List String) (s : AgentState),
      chainMeasure (reg.map Prod.fst) templateName v < fuel →
      (runTemplateFuel chat reg fuel templateName input v s).2 ≠
        Except.error RunError.outOfFuel := by
  intro fuel
  induction fuel with
  | zero => intro tn i v s h; exact absurd h (Nat.not_lt_zero _)
  | succ fuel ih =>
    intro tn i v s h
    by_cases hname : tn = ""
    · rw [runTemplateFuel_succ]; unfold runFrame; rw [if_pos hname]; simp
    · cases hget : mapGet reg tn with
      | none =>
          rw [runTemplateFuel_succ]; unfold runFrame; rw [if_neg hname, hget]; simp
      | some f =>
        cases htpl : f i with
        | error msg =>
            rw [runTemplateFuel_succ]; unfold runFrame; rw [if_neg hname, hget]
            dsimp only; rw [htpl]; simp
        | ok req =>
          rw [runTemplateFuel_frame chat reg fuel i v s hname hget htpl]
          rw [finishFrame_snd]
          set s2 : AgentState :=
            { enabledTools := req.activeTools.getD s.enabledTools,
              trace := (s.trace ++ resetEvents tn req) ++ activeEvents req } with hs2
          cases hchat : chat req.request s2.enabledTools with
          | error msg =>
              rw [chainStep_chatError _ chat tn i v req s2 msg hchat]
              simp
          | ok pr =>
            obtain ⟨out, resp⟩ := pr
            by_cases hnx : req.nextTemplate.getD "" = ""
            · rw [chainStep_leaf _ chat tn i v req s2 out resp hchat hnx]
              simp
            · by_cases hmem : req.nextTemplate.getD "" ∈ v
              · rw [chainStep_circular _ chat tn i v req s2 out resp _ hchat rfl hnx hmem]
                simp
              · rw [chainStep_chain _ chat tn i v req s2 out resp _ hchat rfl hnx hmem]
                have hlt : chainMeasure (reg.map Prod.fst)
                    (req.nextTemplate.getD "") (v ++ [tn]) < fuel := by
                  have := chainMeasure_decrease (mapGet_mem hget) hmem
                  omega
                have hrec := ih (req.nextTemplate.getD "") out (v ++ [tn])
                  { s2 with trace :=
                      (s2.trace ++ [Event.chatCalled req.request s2.enabledTools]) ++
                        [Event.message ("Running next template: " ++ req.nextTemplate.getD "")] }
                  hlt
                cases hr : (runTemplateFuel chat reg fuel (req.nextTemplate.getD "") out
                    (v ++ [tn])
                    { s2 with trace :=
                        (s2.trace ++ [Event.chatCalled req.request s2.enabledTools]) ++
                          [Event.message ("Running next template: " ++ req.nextTemplate.getD "")] }).2 with
                | error e =>
                    rw [hr] at hrec
                    simpa using hrec
                | ok r => simp

/-- Bound used by the entry point: the measure of a fresh top-level call
is below `fuelBound`. -/
theorem chainMeasure_nil_lt (reg : List (String × TemplateFunction))
    (templateName : String) :
    chainMeasure (reg.map Prod.fst) templateName [] <
      2 * reg.length + 1 := by
  unfold chainMeasure freshCount
  have hfilter : ((reg.map Prod.fst).dedup.filter
      (fun k => decide (k ∉ ([] : List String)))) = (reg.map Prod.fst).dedup :=
    List.filter_eq_self.mpr (fun a _ => by simp)
  rw [hfilter, if_neg (List.not_mem_nil templateName)]
  have h1 : (reg.map Prod.fst).dedup.length ≤ reg.length := by
    calc (reg.map Prod.fst).dedup.length
        ≤ (reg.map Prod.fst).length := (List.dedup_sublist _).length_le
      _ = reg.length := List.length_map _ _
  omega

/-! ### Map operation lemmas (registry round trip) -/

theorem mapGet_mapSet {α : Type} (m : List (String × α)) (k : String) (v : α) :
    mapGet (mapSet m k v) k = some v := by
  induction m with
  | nil => simp [mapSet, mapGet]
  | cons p rest ih =>
    by_cases hp : p.1 = k
    · rw [mapSet, if_pos hp, mapGet]
      simp
    · rw [mapSet, if_neg hp, mapGet, if_neg hp]
      exact ih

theorem mapHas_eq_isSome {α : Type} (m : List (String × α)) (k : String) :
    mapHas m k = (mapGet m k).isSome := by
  induction m with
  | nil => rfl
  | cons p rest ih =>
    rw [mapHas, mapGet]
    by_cases hp : p.1 = k
    · rw [if_pos hp, if_pos hp]; rfl
    · rw [if_neg hp, if_neg hp]; exact ih

theorem mapGet_eq_none_of_not_mem {α : Type} {m : List (String × α)} {k : String}
    (h : k ∉ m.map Prod.fst) : mapGet m k = none := by
  induction m with
  | nil => rfl
  | cons p rest ih =>
    rw [List.map_cons, List.mem_cons] at h
    push_neg at h
    rw [mapGet, if_neg (fun hpk => h.1 hpk.symm)]
    exact ih h.2

theorem mapGet_mapDelete_nodup {α : Type} (m : List (String × α)) (k : String)
    (hnd : (m.map Prod.fst).Nodup) :
    mapGet (mapDelete m k) k = none := by
  induction m with
  | nil => rfl
  | cons p rest ih =>
    rw [List.map_cons, List.nodup_cons] at hnd
    rw [mapDelete]
    by_cases hp : p.1 = k
    · rw [if_pos hp]
      apply mapGet_eq_none_of_not_mem
      rw [← hp]
      exact hnd.1
    · rw [if_neg hp, mapGet, if_neg hp]
      exact ih hnd.2

/-! ### Every successful result is ok, recursively -/

theorem runTemplateFuel_allOk (chat : ChatFn)
    (reg : List (String × TemplateFunction)) :
    ∀ (fuel : Nat) (templateName input : String) (v : List String)
      (s : AgentState) (r : TemplateResult),
      (runTemplateFuel chat reg fuel templateName input v s).2 = Except.ok r →
      r.allOk = true := by
  intro fuel
  induction fuel with
  | zero =>
      intro tn i v s r h
      exact absurd h (by simp [runTemplateFuel])
  | succ fuel ih =>
    intro tn i v s r h
    by_cases hname : tn = ""
    · rw [runTemplateFuel_succ] at h; unfold runFrame at h
      rw [if_pos hname] at h
      exact absurd h (by simp)
    · cases hget : mapGet reg tn with
      | none =>
          rw [runTemplateFuel_succ] at h; unfold runFrame at h
          rw [if_neg hname, hget] at h
          exact absurd h (by simp)
      | some f =>
        cases htpl : f i with
        | error msg =>
            rw [runTemplateFuel_succ] at h; unfold runFrame at h
            rw [if_neg hname, hget] at h
            dsimp only at h; rw [htpl] at h
            exact absurd h (by simp)
        | ok req =>
          rw [runTemplateFuel_frame chat reg fuel i v s hname hget htpl,
            finishFrame_snd] at h
          set s2 : AgentState :=
            { enabledTools := req.activeTools.getD s.enabledTools,
              trace := (s.trace ++ resetEvents tn req) ++ activeEvents req } with hs2
          cases hchat : chat req.request s2.enabledTools with
          | error msg =>
              rw [chainStep_chatError _ chat tn i v req s2 msg hchat] at h
              exact absurd h (by simp)
          | ok pr =>
            obtain ⟨out, resp⟩ := pr
            by_cases hnx : req.nextTemplate.getD "" = ""
            · rw [chainStep_leaf _ chat tn i v req s2 out resp hchat hnx] at h
              simp only [Except.ok.injEq] at h
              rw [← h]
              rfl
            · by_cases hmem : req.nextTemplate.getD "" ∈ v
              · rw [chainStep_circular _ chat tn i v req s2 out resp _ hchat rfl
                  hnx hmem] at h
                exact absurd h (by simp)
              · rw [chainStep_chain _ chat tn i v req s2 out resp _ hchat rfl
                  hnx hmem] at h
                cases hr : (runTemplateFuel chat reg fuel (req.nextTemplate.getD "")
                    out (v ++ [tn])
                    { s2 with trace :=
                        (s2.trace ++ [Event.chatCalled req.request s2.enabledTools]) ++
                          [Event.message ("Running next template: " ++
                            req.nextTemplate.getD "")] }).2 with
                | error e =>
                    rw [hr] at h
                    exact absurd h (by simp)
                | ok r0 =>
                    rw [hr] at h
                    simp only [Except.ok.injEq] at h
                    have hr0 := ih _ _ _ _ _ hr
                    rw [← h]
                    simp [TemplateResult.allOk, hr0]

theorem resetEvents_none (templateName : String) (req : TemplateChatRequest)
    (h : req.reset = none) : resetEvents templateName req = [] := by
  unfold resetEvents; rw [h]

theorem resetEvents_some (templateName : String) (req : TemplateChatRequest)
    (kinds : List ResetWhat) (h : req.reset = some kinds) :
    resetEvents templateName req =
      [Event.message (resetMessage templateName kinds),
       Event.resetIssued kinds] := by
  unfold resetEvents; rw [h]

theorem activeEvents_none (req : TemplateChatRequest)
    (h : req.activeTools = none) : activeEvents req = [] := by
  unfold activeEvents; rw [h]

theorem activeEvents_some (req : TemplateChatRequest) (tools : List String)
    (h : req.activeTools = some tools) :
    activeEvents req =
      [Event.toolsSet tools, Event.message (activeToolsMessage tools)] := by
  unfold activeEvents; rw [h]

/-- Fixture for concrete witnesses: a template function returning a fixed
directive on every input. -/
def constTemplate (req : TemplateChatRequest) : TemplateFunction :=
  fun _ => Except.ok req

/-- Fixture for concrete witnesses: a chat primitive that always succeeds
with a fixed output. -/
def okChat : ChatFn := fun _ _ => Except.ok ("chat-output", "chat-response")

/-! ### Claims -/

/-- C3: `runTemplate` always terminates: for every finite registry, every
assignment of template functions (hence directives), every chat behaviour
and every starting state, the recursion along `nextTemplate` links is
bounded by the growing visited-set, so the fuel-exhaustion marker of the
embedding is never reached from a top-level invocation. -/
theorem runTemplate_always_terminates (svc : TemplateService) (chat : ChatFn)
    (templateName input : String) (s : AgentState) :
    (svc.runTemplate chat templateName input s).2 ≠
      Except.error RunError.outOfFuel := by
  unfold TemplateService.runTemplate
  apply runTemplateFuel_ne_outOfFuel
  unfold TemplateService.fuelBound
  exact chainMeasure_nil_lt svc.templates templateName

/-- C6: with an empty `templateName` the run fails with the
missing-template-name error, and with a name absent from the registry it
fails with the template-not-found error; in both cases the returned state
is exactly the entry state — no event is emitted, so no chat dispatch is
performed and no template function is invoked. -/
theorem runTemplate_missing_or_not_found (svc : TemplateService)
    (chat : ChatFn) (templateName input : String) (s : AgentState)
    (h : templateName = "" ∨ mapGet svc.templates templateName = none) :
    svc.runTemplate chat templateName input s =
      (s, Except.error (RunError.thrown
        (if templateName = "" then "Template name is required"
         else "Template not found: " ++ templateName))) := by
  unfold TemplateService.runTemplate TemplateService.fuelBound
  rw [runTemplateFuel_succ]
  unfold runFrame
  by_cases hname : templateName = ""
  · rw [if_pos hname, if_pos hname]
  · rw [if_neg hname, if_neg hname]
    rcases h with h | h
    · exact absurd h hname
    · rw [h]

/-- Witness for C6 at a concrete input: the empty name on an empty
registry. -/
theorem runTemplate_missing_or_not_found_witness :
    (("" : String) = "" ∨ mapGet (TemplateService.mk []).templates "" = none) ∧
    TemplateService.runTemplate ⟨[]⟩ (fun _ _ => Except.ok ("o", "r")) "" "x"
        ⟨[], []⟩ =
      (⟨[], []⟩, Except.error (RunError.thrown
        (if ("" : String) = "" then "Template name is required"
         else "Template not found: " ++ ""))) :=
  ⟨Or.inl rfl,
    runTemplate_missing_or_not_found ⟨[]⟩ (fun _ _ => Except.ok ("o", "r"))
      "" "x" ⟨[], []⟩ (Or.inl rfl)⟩

/-- C8: registry round trip.  For every registry state reachable by a
JavaScript `Map` (keys unique), every name `n` and function `f`:
`register(n, f)` then `get n` returns `f`; `unregister n` then `get n`
returns absent; and `unregister n` reports `true` exactly when `n` was
registered. -/
theorem registry_roundtrip (r : TemplateRegistry) (n : String)
    (f : TemplateFunction)
    (hnd : (r.templates.map Prod.fst).Nodup) :
    (r.register n f).get n = some f ∧
    ((r.unregister n).1).get n = none ∧
    ((r.unregister n).2 = true ↔ (r.get n).isSome = true) := by
  refine ⟨?_, ?_, ?_⟩
  · exact mapGet_mapSet r.templates n f
  · exact mapGet_mapDelete_nodup r.templates n hnd
  · unfold TemplateRegistry.unregister TemplateRegistry.get
    dsimp only
    rw [mapHas_eq_isSome]

/-- Witness for C8 at a concrete registry holding one entry. -/
theorem registry_roundtrip_witness :
    ((([("a", (fun i => Except.ok ⟨i, none, none, none⟩ : TemplateFunction))] :
        List (String × TemplateFunction)).map Prod.fst).Nodup) ∧
    ((TemplateRegistry.mk [("a", fun i => Except.ok ⟨i, none, none, none⟩)]).register "b"
        (fun _ => Except.ok ⟨"q", none, none, none⟩)).get "b" =
      some (fun _ => Except.ok ⟨"q", none, none, none⟩) ∧
    (((TemplateRegistry.mk [("a", fun i => Except.ok ⟨i, none, none, none⟩)]).unregister "b").1).get "b" = none ∧
    (((TemplateRegistry.mk [("a", fun i => Except.ok ⟨i, none, none, none⟩)]).unregister "b").2 = true ↔
      ((TemplateRegistry.mk [("a", fun i => Except.ok ⟨i, none, none, none⟩)]).get "b").isSome = true) :=
  ⟨by simp,
    registry_roundtrip ⟨[("a", fun i => Except.ok ⟨i, none, none, none⟩)]⟩ "b"
      (fun _ => Except.ok ⟨"q", none, none, none⟩) (by simp)⟩

/-- C1: for every invocation frame whose directive carries `activeTools`,
the enabled-tool set in effect immediately before the substitution (the
frame's entry set — the reset step does not touch tools) is exactly
restored on every exit path of the frame — successful return, chat
failure and failure of the chained recursive call alike — and the
restoration notice is emitted as the frame's final events.  The
statement quantifies over arbitrary `visitedTemplates` and entry states,
so it applies to every frame of a chain independently: each frame
captures and restores its own snapshot. -/
theorem runTemplate_activeTools_restored_on_every_exit
    (chat : ChatFn) (reg : List (String × TemplateFunction)) (fuel : Nat)
    (templateName input : String) (v : List String) (s : AgentState)
    (f : TemplateFunction) (req : TemplateChatRequest) (tools : List String)
    (hname : ¬ templateName = "") (hget : mapGet reg templateName = some f)
    (htpl : f input = Except.ok req) (hat : req.activeTools = some tools) :
    ((runTemplateFuel chat reg (fuel + 1) templateName input v s).1).enabledTools =
      s.enabledTools ∧
    ∃ mid, ((runTemplateFuel chat reg (fuel + 1) templateName input v s).1).trace =
      (s.trace ++ mid) ++
        [Event.toolsSet s.enabledTools,
         Event.message (restoredMessage s.enabledTools)] := by
  rw [runTemplateFuel_frame chat reg fuel input v s hname hget htpl]
  rw [finishFrame_of_some _ _ _ _ hat]
  constructor
  · rfl
  · obtain ⟨t, ht⟩ := chainStep_trace
      (fun a b c st => runTemplateFuel chat reg fuel a b c st)
      chat templateName input v req
      { enabledTools := req.activeTools.getD s.enabledTools,
        trace := (s.trace ++ resetEvents templateName req) ++ activeEvents req }
      (fun a b c st => runTemplateFuel_trace chat reg fuel a b c st)
    refine ⟨resetEvents templateName req ++ activeEvents req ++
      (Event.chatCalled req.request (req.activeTools.getD s.enabledTools) :: t), ?_⟩
    dsimp only
    rw [← ht]
    simp

/-- Witness for C1 at a concrete frame narrowing tools to `["y"]` from an
environment with tools `["x"]`. -/
theorem runTemplate_activeTools_restored_witness :
    (¬ ("t" : String) = "") ∧
    ((runTemplateFuel okChat [("t", constTemplate ⟨"r", none, none, some ["y"]⟩)]
        (0 + 1) "t" "i" [] ⟨["x"], []⟩).1).enabledTools = ["x"] ∧
    ∃ mid, ((runTemplateFuel okChat [("t", constTemplate ⟨"r", none, none, some ["y"]⟩)]
        (0 + 1) "t" "i" [] ⟨["x"], []⟩).1).trace =
      (([] : List Event) ++ mid) ++
        [Event.toolsSet ["x"], Event.message (restoredMessage ["x"])] := by
  refine ⟨by decide, ?_⟩
  exact runTemplate_activeTools_restored_on_every_exit okChat
    [("t", constTemplate ⟨"r", none, none, some ["y"]⟩)] 0 "t" "i" []
    ⟨["x"], []⟩ (constTemplate ⟨"r", none, none, some ["y"]⟩)
    ⟨"r", none, none, some ["y"]⟩ ["y"] (by decide) rfl rfl rfl

/-- C10: an empty `activeTools` list in a directive is treated as
present, not absent: the enabled-tool set is replaced by the empty set —
the frame's chat dispatch runs with no tools enabled — and the prior
enabled set is restored afterwards. -/
theorem runTemplate_empty_activeTools_disables_all
    (chat : ChatFn) (reg : List (String × TemplateFunction)) (fuel : Nat)
    (templateName input : String) (v : List String) (s : AgentState)
    (f : TemplateFunction) (req : TemplateChatRequest)
    (hname : ¬ templateName = "") (hget : mapGet reg templateName = some f)
    (htpl : f input = Except.ok req) (hat : req.activeTools = some []) :
    ((runTemplateFuel chat reg (fuel + 1) templateName input v s).1).enabledTools =
      s.enabledTools ∧
    ∃ rest, ((runTemplateFuel chat reg (fuel + 1) templateName input v s).1).trace =
      s.trace ++ resetEvents templateName req ++
        [Event.toolsSet [], Event.message (activeToolsMessage []),
         Event.chatCalled req.request []] ++ rest := by
  rw [runTemplateFuel_frame chat reg fuel input v s hname hget htpl]
  rw [finishFrame_of_some _ _ _ _ hat]
  constructor
  · rfl
  · obtain ⟨t, ht⟩ := chainStep_trace
      (fun a b c st => runTemplateFuel chat reg fuel a b c st)
      chat templateName input v req
      { enabledTools := req.activeTools.getD s.enabledTools,
        trace := (s.trace ++ resetEvents templateName req) ++ activeEvents req }
      (fun a b c st => runTemplateFuel_trace chat reg fuel a b c st)
    refine ⟨t ++ [Event.toolsSet s.enabledTools,
      Event.message (restoredMessage s.enabledTools)], ?_⟩
    dsimp only
    rw [← ht]
    simp [activeEvents_some req [] hat, hat, activeToolsMessage]

/-- Witness for C10: a directive with `activeTools: []` dispatches chat
with no tools enabled and restores `["x"]` after. -/
theorem runTemplate_empty_activeTools_witness :
    (¬ ("t" : String) = "") ∧
    ((runTemplateFuel okChat [("t", constTemplate ⟨"r", none, none, some []⟩)]
        (0 + 1) "t" "i" [] ⟨["x"], []⟩).1).enabledTools = ["x"] ∧
    ∃ rest, ((runTemplateFuel okChat [("t", constTemplate ⟨"r", none, none, some []⟩)]
        (0 + 1) "t" "i" [] ⟨["x"], []⟩).1).trace =
      ([] : List Event) ++ resetEvents "t" ⟨"r", none, none, some []⟩ ++
        [Event.toolsSet [], Event.message (activeToolsMessage []),
         Event.chatCalled "r" []] ++ rest := by
  refine ⟨by decide, ?_⟩
  exact runTemplate_empty_activeTools_disables_all okChat
    [("t", constTemplate ⟨"r", none, none, some []⟩)] 0 "t" "i" []
    ⟨["x"], []⟩ (constTemplate ⟨"r", none, none, some []⟩)
    ⟨"r", none, none, some []⟩ (by decide) rfl rfl rfl

/-- C4: errors are propagated, not converted.  (1) If the resolved
template function throws, the frame rethrows that same failure with the
entry state unchanged (no `{ok:false}` result is fabricated).  (2) When
a chained template's function throws, the failure surfaces through the
outer tool-narrowing frame unchanged, and that frame still restores the
captured tool set and emits the restoration notice before the failure
leaves it.  (3) Consequently every `TemplateResult` a run ever returns
has `ok = true`, recursively through its chained results. -/
theorem runTemplate_error_propagation (chat : ChatFn)
    (reg : List (String × TemplateFunction)) (fuel : Nat) :
    (∀ (templateName input : String) (v : List String) (s : AgentState)
        (f : TemplateFunction) (msg : String),
        ¬ templateName = "" → mapGet reg templateName = some f →
        f input = Except.error msg →
        runTemplateFuel chat reg (fuel + 1) templateName input v s =
          (s, Except.error (RunError.thrown msg))) ∧
    (∀ (nameA nameB inputA : String) (v : List String) (s : AgentState)
        (fA fB : TemplateFunction) (reqA : TemplateChatRequest)
        (tools : List String) (outA respA msg : String),
        ¬ nameA = "" → mapGet reg nameA = some fA →
        fA inputA = Except.ok reqA → reqA.activeTools = some tools →
        chat reqA.request tools = Except.ok (outA, respA) →
        reqA.nextTemplate = some nameB → ¬ nameB = "" → ¬ nameB ∈ v →
        mapGet reg nameB = some fB → fB outA = Except.error msg →
        (runTemplateFuel chat reg (fuel + 1 + 1) nameA inputA v s).2 =
          Except.error (RunError.thrown msg) ∧
        ((runTemplateFuel chat reg (fuel + 1 + 1) nameA inputA v s).1).enabledTools =
          s.enabledTools ∧
        ∃ mid, ((runTemplateFuel chat reg (fuel + 1 + 1) nameA inputA v s).1).trace =
          (s.trace ++ mid) ++
            [Event.toolsSet s.enabledTools,
             Event.message (restoredMessage s.enabledTools)]) ∧
    (∀ (fuel2 : Nat) (templateName input : String) (v : List String)
        (s : AgentState) (r : TemplateResult),
        (runTemplateFuel chat reg fuel2 templateName input v s).2 = Except.ok r →
        r.allOk = true) := by
  refine ⟨?_, ?_, ?_⟩
  · intro tn i v s f msg hname hget htpl
    rw [runTemplateFuel_succ]
    unfold runFrame
    rw [if_neg hname, hget]
    dsimp only
    rw [htpl]
  · intro nameA nameB inputA v s fA fB reqA tools outA respA msg hnA hgetA
      htplA hat hchatA hnextA hnB hBmem hgetB htplB
    rw [runTemplateFuel_frame chat reg (fuel + 1) inputA v s hnA hgetA htplA]
    rw [finishFrame_of_some _ _ _ _ hat]
    set s2 : AgentState :=
      { enabledTools := reqA.activeTools.getD s.enabledTools,
        trace := (s.trace ++ resetEvents nameA reqA) ++ activeEvents reqA } with hs2
    have hcA : chat reqA.request s2.enabledTools = Except.ok (outA, respA) := by
      rw [hs2]
      dsimp only
      rw [hat]
      exact hchatA
    have hnA2 : reqA.nextTemplate.getD "" = nameB := by rw [hnextA]; rfl
    rw [chainStep_chain _ chat nameA inputA v reqA s2 outA respA nameB hcA
      hnA2 hnB hBmem]
    set s4 : AgentState :=
      { s2 with trace :=
          (s2.trace ++ [Event.chatCalled reqA.request s2.enabledTools]) ++
            [Event.message ("Running next template: " ++ nameB)] } with hs4
    have hinner : runTemplateFuel chat reg (fuel + 1) nameB outA (v ++ [nameA])
        s4 = (s4, Except.error (RunError.thrown msg)) := by
      rw [runTemplateFuel_succ]
      unfold runFrame
      rw [if_neg hnB, hgetB]
      dsimp only
      rw [htplB]
    rw [hinner]
    refine ⟨rfl, rfl, ?_⟩
    refine ⟨resetEvents nameA reqA ++ activeEvents reqA ++
      [Event.chatCalled reqA.request s2.enabledTools,
       Event.message ("Running next template: " ++ nameB)], ?_⟩
    rw [hs4, hs2]
    dsimp only
    simp
  · intro fuel2 tn i v s r h
    exact runTemplateFuel_allOk chat reg fuel2 tn i v s r h

/-- Witness for C4, instantiating all three conjuncts: a throwing
template propagates its message; a chained template throwing surfaces
through the narrowing outer frame with tools restored; a successful
run's result is all-ok. -/
theorem runTemplate_error_propagation_witness :
    (runTemplateFuel okChat [("t", fun _ => Except.error "boom")] (0 + 1)
        "t" "i" [] ⟨["x"], []⟩ =
      (⟨["x"], []⟩, Except.error (RunError.thrown "boom"))) ∧
    ((runTemplateFuel okChat
        [("A", constTemplate ⟨"rA", some "B", none, some ["y"]⟩),
         ("B", fun _ => Except.error "inner-boom")] (0 + 1 + 1)
        "A" "i" [] ⟨["x"], []⟩).2 = Except.error (RunError.thrown "inner-boom") ∧
      ((runTemplateFuel okChat
        [("A", constTemplate ⟨"rA", some "B", none, some ["y"]⟩),
         ("B", fun _ => Except.error "inner-boom")] (0 + 1 + 1)
        "A" "i" [] ⟨["x"], []⟩).1).enabledTools = ["x"] ∧
      ∃ mid, ((runTemplateFuel okChat
        [("A", constTemplate ⟨"rA", some "B", none, some ["y"]⟩),
         ("B", fun _ => Except.error "inner-boom")] (0 + 1 + 1)
        "A" "i" [] ⟨["x"], []⟩).1).trace =
        (([] : List Event) ++ mid) ++
          [Event.toolsSet ["x"], Event.message (restoredMessage ["x"])]) ∧
    ((runTemplateFuel okChat [("t", constTemplate ⟨"r", none, none, none⟩)] 1
        "t" "i" [] ⟨["x"], []⟩).2 =
      Except.ok (TemplateResult.leaf true (some "chat-output")
        (some "chat-response") none) →
      (TemplateResult.leaf true (some "chat-output")
        (some "chat-response") none).allOk = true) := by
  refine ⟨?_, ?_, ?_⟩
  · exact (runTemplate_error_propagation okChat
      [("t", fun _ => Except.error "boom")] 0).1 "t" "i" [] ⟨["x"], []⟩
      (fun _ => Except.error "boom") "boom" (by decide) rfl rfl
  · exact (runTemplate_error_propagation okChat
      [("A", constTemplate ⟨"rA", some "B", none, some ["y"]⟩),
       ("B", fun _ => Except.error "inner-boom")] 0).2.1 "A" "B" "i" []
      ⟨["x"], []⟩ (constTemplate ⟨"rA", some "B", none, some ["y"]⟩)
      (fun _ => Except.error "inner-boom")
      ⟨"rA", some "B", none, some ["y"]⟩ ["y"] "chat-output" "chat-response"
      "inner-boom" (by decide) rfl rfl rfl rfl rfl (by decide) (by decide)
      rfl rfl
  · exact (runTemplate_error_propagation okChat
      [("t", constTemplate ⟨"r", none, none, none⟩)] 0).2.2 1 "t" "i" []
      ⟨["x"], []⟩ (TemplateResult.leaf true (some "chat-output")
        (some "chat-response") none)

theorem finishFrame_trace (req : TemplateChatRequest) (o : List String)
    (p : AgentState × Except RunError TemplateResult) :
    ∃ tail, ((finishFrame req o p).1).trace = p.1.trace ++ tail := by
  unfold finishFrame
  cases req.activeTools
  · exact ⟨[], by simp⟩
  · exact ⟨_, rfl⟩

/-- C7 counterexample: a directive whose `reset` field is present but
empty.  The claim requires the reset to be issued only when the field is
present **and non-empty**; the engine issues the reset call anyway,
because a present empty array is truthy in JavaScript. -/
theorem reset_present_but_empty_still_issued_counterexample :
    (⟨"r", none, some [], none⟩ : TemplateChatRequest).reset =
      some ([] : List ResetWhat) ∧
    Event.resetIssued [] ∈
      ((TemplateService.runTemplate
        ⟨[("t", constTemplate ⟨"r", none, some [], none⟩)]⟩ okChat "t" "i"
        ⟨["x"], []⟩).1).trace :=
  ⟨rfl, by decide⟩

/-- C7 (amended): the context reset is issued exactly when the
directive's `reset` field is present — a present-but-empty list included
— with the notice naming the reset kinds emitted immediately before it,
and both strictly precede the frame's chat dispatch, never following
it.  The frame's pre-dispatch trace is exactly the reset events followed
by the tool-narrowing events followed by the dispatch; the reset events
are nonempty exactly when `reset` is present, and the narrowing segment
never contains a reset. -/
theorem runTemplate_reset_iff_present_before_chat
    (chat : ChatFn) (reg : List (String × TemplateFunction)) (fuel : Nat)
    (templateName input : String) (v : List String) (s : AgentState)
    (f : TemplateFunction) (req : TemplateChatRequest)
    (hname : ¬ templateName = "") (hget : mapGet reg templateName = some f)
    (htpl : f input = Except.ok req) :
    (∃ rest, ((runTemplateFuel chat reg (fuel + 1) templateName input v s).1).trace =
      s.trace ++ resetEvents templateName req ++ activeEvents req ++
        [Event.chatCalled req.request (req.activeTools.getD s.enabledTools)] ++ rest) ∧
    (∀ kinds, req.reset = some kinds ↔
      resetEvents templateName req =
        [Event.message (resetMessage templateName kinds),
         Event.resetIssued kinds]) ∧
    (req.reset = none ↔ resetEvents templateName req = []) ∧
    (∀ kinds, Event.resetIssued kinds ∉ activeEvents req) := by
  refine ⟨?_, ?_, ?_, ?_⟩
  · rw [runTemplateFuel_frame chat reg fuel input v s hname hget htpl]
    obtain ⟨tail, htail⟩ := finishFrame_trace req s.enabledTools _
    obtain ⟨t, ht⟩ := chainStep_trace
      (fun a b c st => runTemplateFuel chat reg fuel a b c st)
      chat templateName input v req
      { enabledTools := req.activeTools.getD s.enabledTools,
        trace := (s.trace ++ resetEvents templateName req) ++ activeEvents req }
      (fun a b c st => runTemplateFuel_trace chat reg fuel a b c st)
    refine ⟨t ++ tail, ?_⟩
    rw [htail, ← ht]
    simp
  · intro kinds
    constructor
    · intro h
      exact resetEvents_some templateName req kinds h
    · intro h
      cases hres : req.reset with
      | none =>
          rw [resetEvents_none templateName req hres] at h
          exact absurd h (by simp)
      | some k =>
          rw [resetEvents_some templateName req k hres] at h
          simp only [List.cons.injEq, Event.message.injEq,
            Event.resetIssued.injEq, and_true] at h
          rw [h.2]
  · constructor
    · intro h
      exact resetEvents_none templateName req h
    · intro h
      cases hres : req.reset with
      | none => rfl
      | some k =>
          rw [resetEvents_some templateName req k hres] at h
          exact absurd h (by simp)
  · intro kinds
    cases hat : req.activeTools with
    | none => rw [activeEvents_none req hat]; simp
    | some tools => rw [activeEvents_some req tools hat]; simp

/-- Witness for the amended C7 at a concrete frame resetting `["chat"]`
context. -/
theorem runTemplate_reset_before_chat_witness :
    (¬ ("t" : String) = "") ∧
    ((∃ rest, ((runTemplateFuel okChat
        [("t", constTemplate ⟨"r", none, some ["chat"], none⟩)] (0 + 1)
        "t" "i" [] ⟨["x"], []⟩).1).trace =
      ([] : List Event) ++ resetEvents "t" ⟨"r", none, some ["chat"], none⟩ ++
        activeEvents ⟨"r", none, some ["chat"], none⟩ ++
        [Event.chatCalled "r"
          ((⟨"r", none, some ["chat"], none⟩ :
            TemplateChatRequest).activeTools.getD ["x"])] ++ rest) ∧
    (∀ kinds, (⟨"r", none, some ["chat"], none⟩ : TemplateChatRequest).reset = some kinds ↔
      resetEvents "t" ⟨"r", none, some ["chat"], none⟩ =
        [Event.message (resetMessage "t" kinds), Event.resetIssued kinds]) ∧
    ((⟨"r", none, some ["chat"], none⟩ : TemplateChatRequest).reset = none ↔
      resetEvents "t" ⟨"r", none, some ["chat"], none⟩ = []) ∧
    (∀ kinds, Event.resetIssued kinds ∉
      activeEvents ⟨"r", none, some ["chat"], none⟩)) :=
  ⟨by decide,
    runTemplate_reset_iff_present_before_chat okChat
      [("t", constTemplate ⟨"r", none, some ["chat"], none⟩)] 0 "t" "i" []
      ⟨["x"], []⟩ (constTemplate ⟨"r", none, some ["chat"], none⟩)
      ⟨"r", none, some ["chat"], none⟩ (by decide) rfl rfl⟩

/-- C9: when a frame raises the circular-reference error, that frame's
own chat dispatch and result assembly have already happened: the
visited-set check runs only after the chat invocation, so the detecting
frame's chat output is produced — the dispatch event is on the trace —
and then discarded by the thrown error. -/
theorem runTemplate_circular_error_after_chat
    (chat : ChatFn) (reg : List (String × TemplateFunction)) (fuel : Nat)
    (templateName input : String) (v : List String) (s : AgentState)
    (f : TemplateFunction) (req : TemplateChatRequest)
    (out resp nx : String)
    (hname : ¬ templateName = "") (hget : mapGet reg templateName = some f)
    (htpl : f input = Except.ok req)
    (hchat : chat req.request (req.activeTools.getD s.enabledTools) =
      Except.ok (out, resp))
    (hnext : req.nextTemplate = some nx) (hnx : ¬ nx = "") (hmem : nx ∈ v) :
    (runTemplateFuel chat reg (fuel + 1) templateName input v s).2 =
      Except.error (RunError.thrown (circularMessage nx)) ∧
    ∃ rest, ((runTemplateFuel chat reg (fuel + 1) templateName input v s).1).trace =
      s.trace ++ resetEvents templateName req ++ activeEvents req ++
        [Event.chatCalled req.request (req.activeTools.getD s.enabledTools)] ++ rest := by
  rw [runTemplateFuel_frame chat reg fuel input v s hname hget htpl]
  have hn : req.nextTemplate.getD "" = nx := by rw [hnext]; rfl
  have hchat2 : chat req.request
      (({ enabledTools := req.activeTools.getD s.enabledTools,
          trace := (s.trace ++ resetEvents templateName req) ++ activeEvents req } :
        AgentState)).enabledTools = Except.ok (out, resp) := hchat
  rw [chainStep_circular _ chat templateName input v req _ out resp nx hchat2
    hn hnx hmem]
  constructor
  · rw [finishFrame_snd]
  · obtain ⟨tail, htail⟩ := finishFrame_trace req s.enabledTools _
    refine ⟨tail, ?_⟩
    rw [htail]

/-- Witness for C9: a frame invoked with its chain target already in the
visited-set errors with the circular message, its chat dispatch on the
trace. -/
theorem runTemplate_circular_after_chat_witness :
    (¬ ("t" : String) = "") ∧
    ((runTemplateFuel okChat [("t", constTemplate ⟨"r", some "x0", none, none⟩)]
        (0 + 1) "t" "i" ["x0"] ⟨["x"], []⟩).2 =
      Except.error (RunError.thrown (circularMessage "x0")) ∧
    ∃ rest, ((runTemplateFuel okChat
        [("t", constTemplate ⟨"r", some "x0", none, none⟩)]
        (0 + 1) "t" "i" ["x0"] ⟨["x"], []⟩).1).trace =
      ([] : List Event) ++ resetEvents "t" ⟨"r", some "x0", none, none⟩ ++
        activeEvents ⟨"r", some "x0", none, none⟩ ++
        [Event.chatCalled "r"
          ((⟨"r", some "x0", none, none⟩ :
            TemplateChatRequest).activeTools.getD ["x"])] ++ rest) :=
  ⟨by decide,
    runTemplate_circular_error_after_chat okChat
      [("t", constTemplate ⟨"r", some "x0", none, none⟩)] 0 "t" "i" ["x0"]
      ⟨["x"], []⟩ (constTemplate ⟨"r", some "x0", none, none⟩)
      ⟨"r", some "x0", none, none⟩ "chat-output" "chat-response" "x0"
      (by decide) rfl rfl rfl rfl (by decide) (by decide)⟩

/-- In a self-chaining configuration, two frames suffice to reach the
circular-reference error: the first frame chains (its visited-set is
empty), the second frame's chain attempt finds the name visited. -/
theorem runTemplateFuel_self_chain (chat : ChatFn)
    (reg : List (String × TemplateFunction)) (fuel : Nat)
    (x input : String) (s : AgentState) (f : TemplateFunction)
    (hx : ¬ x = "") (hget : mapGet reg x = some f)
    (hreq : ∀ i, ∃ req, f i = Except.ok req ∧ req.nextTemplate = some x)
    (hchat : ∀ r t, ∃ o resp, chat r t = Except.ok (o, resp)) :
    (runTemplateFuel chat reg (fuel + 1 + 1) x input [] s).2 =
      Except.error (RunError.thrown (circularMessage x)) := by
  obtain ⟨req1, hreq1, hnext1⟩ := hreq input
  rw [runTemplateFuel_frame chat reg (fuel + 1) input [] s hx hget hreq1,
    finishFrame_snd]
  set s2 : AgentState :=
    { enabledTools := req1.activeTools.getD s.enabledTools,
      trace := (s.trace ++ resetEvents x req1) ++ activeEvents req1 } with hs2
  obtain ⟨o1, r1, hc1⟩ := hchat req1.request s2.enabledTools
  have hn1 : req1.nextTemplate.getD "" = x := by rw [hnext1]; rfl
  rw [chainStep_chain _ chat x input [] req1 s2 o1 r1 x hc1 hn1 hx
    (List.not_mem_nil x)]
  set s4 : AgentState :=
    { s2 with trace :=
        (s2.trace ++ [Event.chatCalled req1.request s2.enabledTools]) ++
          [Event.message ("Running next template: " ++ x)] } with hs4
  have hinner : (runTemplateFuel chat reg (fuel + 1) x o1 ([] ++ [x]) s4).2 =
      Except.error (RunError.thrown (circularMessage x)) := by
    obtain ⟨req2, hreq2, hnext2⟩ := hreq o1
    rw [runTemplateFuel_frame chat reg fuel o1 ([] ++ [x]) s4 hx hget hreq2,
      finishFrame_snd]
    set t2 : AgentState :=
      { enabledTools := req2.activeTools.getD s4.enabledTools,
        trace := (s4.trace ++ resetEvents x req2) ++ activeEvents req2 } with ht2
    obtain ⟨o2, r2, hc2⟩ := hchat req2.request t2.enabledTools
    have hn2 : req2.nextTemplate.getD "" = x := by rw [hnext2]; rfl
    rw [chainStep_circular _ chat x o1 ([] ++ [x]) req2 t2 o2 r2 x hc2 hn2 hx
      (by simp)]
  dsimp only
  rw [hinner]

/-- C2 counterexample: the single-template registry where `X` chains to
itself.  `runTemplate("X", ...)` does fail with the circular-reference
error, but the trace carries **two** chat dispatches: `X` is executed a
second time before the error is raised, contradicting the claim that the
failure happens before the second execution. -/
theorem self_chain_second_execution_counterexample :
    (TemplateService.runTemplate
        ⟨[("X", constTemplate ⟨"r", some "X", none, none⟩)]⟩ okChat "X" "i"
        ⟨[], []⟩).2 =
      Except.error (RunError.thrown (circularMessage "X")) ∧
    (((TemplateService.runTemplate
        ⟨[("X", constTemplate ⟨"r", some "X", none, none⟩)]⟩ okChat "X" "i"
        ⟨[], []⟩).1).trace.countP
      (fun e => match e with
        | Event.chatCalled _ _ => true
        | _ => false)) = 2 :=
  ⟨by decide, by decide⟩

/-- C2 (amended): for every registry containing a template `X` whose
directive always sets `nextTemplate: "X"`, and any succeeding chat,
`runTemplate("X", input)` fails with the circular-reference error; the
error is raised during the second entry into `X`, at the second frame's
own chaining step — after that frame's chat dispatch — so the chain
never reaches a third entry and never loops indefinitely. -/
theorem runTemplate_self_chain_circular (svc : TemplateService)
    (chat : ChatFn) (x input : String) (s : AgentState) (f : TemplateFunction)
    (hx : ¬ x = "") (hget : mapGet svc.templates x = some f)
    (hreq : ∀ i, ∃ req, f i = Except.ok req ∧ req.nextTemplate = some x)
    (hchat : ∀ r t, ∃ o resp, chat r t = Except.ok (o, resp)) :
    (svc.runTemplate chat x input s).2 =
      Except.error (RunError.thrown (circularMessage x)) := by
  unfold TemplateService.runTemplate TemplateService.fuelBound
  have hlen : 1 ≤ svc.templates.length := by
    cases hm : svc.templates with
    | nil => rw [hm] at hget; exact absurd hget (by simp [mapGet])
    | cons a l => simp [hm]
  obtain ⟨m, hm2⟩ : ∃ m, 2 * svc.templates.length + 1 = m + 1 + 1 :=
    ⟨2 * svc.templates.length - 1, by omega⟩
  rw [hm2]
  exact runTemplateFuel_self_chain chat svc.templates m x input s f hx hget
    hreq hchat

/-- Witness for the amended C2 on the concrete self-chaining registry. -/
theorem runTemplate_self_chain_circular_witness :
    (¬ ("X" : String) = "") ∧
    ((TemplateService.mk [("X", constTemplate ⟨"r", some "X", none, none⟩)]).runTemplate
        okChat "X" "i" ⟨[], []⟩).2 =
      Except.error (RunError.thrown (circularMessage "X")) :=
  ⟨by decide,
    runTemplate_self_chain_circular
      ⟨[("X", constTemplate ⟨"r", some "X", none, none⟩)]⟩ okChat "X" "i"
      ⟨[], []⟩ (constTemplate ⟨"r", some "X", none, none⟩) (by decide) rfl
      (fun i => ⟨⟨"r", some "X", none, none⟩, rfl, rfl⟩)
      (fun r t => ⟨"chat-output", "chat-response", rfl⟩)⟩

/-- C5: chain propagation.  `A`'s directive chains to `B`, `B` chains no
further; running `A` yields `ok = true` with `B`'s successful result
attached as `nextTemplateResult`, and `B`'s directive is produced from
`A`'s chat output `outA` (the hypotheses constrain `B`'s template
function only at `outA`), not from `A`'s original input. -/
theorem runTemplate_chain_propagation (chat : ChatFn)
    (reg : List (String × TemplateFunction)) (fuel : Nat)
    (nameA nameB inputA : String) (v : List String) (s : AgentState)
    (fA fB : TemplateFunction) (reqA reqB : TemplateChatRequest)
    (outA respA outB respB : String)
    (hnA : ¬ nameA = "") (hgetA : mapGet reg nameA = some fA)
    (hfA : fA inputA = Except.ok reqA)
    (hnextA : reqA.nextTemplate = some nameB) (hnB : ¬ nameB = "")
    (hBmem : ¬ nameB ∈ v)
    (hchatA : chat reqA.request (reqA.activeTools.getD s.enabledTools) =
      Except.ok (outA, respA))
    (hgetB : mapGet reg nameB = some fB)
    (hfB : fB outA = Except.ok reqB)
    (hnextB : reqB.nextTemplate = none)
    (hchatB : chat reqB.request
        (reqB.activeTools.getD (reqA.activeTools.getD s.enabledTools)) =
      Except.ok (outB, respB)) :
    (runTemplateFuel chat reg (fuel + 1 + 1) nameA inputA v s).2 =
      Except.ok (TemplateResult.chain true (some outA) (some respA) none
        (TemplateResult.leaf true (some outB) (some respB) none)) := by
  rw [runTemplateFuel_frame chat reg (fuel + 1) inputA v s hnA hgetA hfA,
    finishFrame_snd]
  set s2 : AgentState :=
    { enabledTools := reqA.activeTools.getD s.enabledTools,
      trace := (s.trace ++ resetEvents nameA reqA) ++ activeEvents reqA } with hs2
  have hcA : chat reqA.request s2.enabledTools = Except.ok (outA, respA) := hchatA
  have hnA2 : reqA.nextTemplate.getD "" = nameB := by rw [hnextA]; rfl
  rw [chainStep_chain _ chat nameA inputA v reqA s2 outA respA nameB hcA hnA2
    hnB hBmem]
  set s4 : AgentState :=
    { s2 with trace :=
        (s2.trace ++ [Event.chatCalled reqA.request s2.enabledTools]) ++
          [Event.message ("Running next template: " ++ nameB)] } with hs4
  have hinner : (runTemplateFuel chat reg (fuel + 1) nameB outA (v ++ [nameA])
      s4).2 = Except.ok (TemplateResult.leaf true (some outB) (some respB) none) := by
    rw [runTemplateFuel_frame chat reg fuel outA (v ++ [nameA]) s4 hnB hgetB hfB,
      finishFrame_snd]
    set t2 : AgentState :=
      { enabledTools := reqB.activeTools.getD s4.enabledTools,
        trace := (s4.trace ++ resetEvents nameB reqB) ++ activeEvents reqB } with ht2
    have hcB : chat reqB.request t2.enabledTools = Except.ok (outB, respB) := hchatB
    have hnB2 : reqB.nextTemplate.getD "" = "" := by rw [hnextB]; rfl
    rw [chainStep_leaf _ chat nameB outA (v ++ [nameA]) reqB t2 outB respB hcB
      hnB2]
  dsimp only
  rw [hinner]

/-- Witness for C5 on a concrete two-template registry `A → B`. -/
theorem runTemplate_chain_propagation_witness :
    (¬ ("A" : String) = "") ∧
    (runTemplateFuel okChat
        [("A", constTemplate ⟨"rA", some "B", none, none⟩),
         ("B", constTemplate ⟨"rB", none, none, none⟩)] (0 + 1 + 1)
        "A" "hi" [] ⟨["x"], []⟩).2 =
      Except.ok (TemplateResult.chain true (some "chat-output")
        (some "chat-response") none
        (TemplateResult.leaf true (some "chat-output")
          (some "chat-response") none)) :=
  ⟨by decide,
    runTemplate_chain_propagation okChat
      [("A", constTemplate ⟨"rA", some "B", none, none⟩),
       ("B", constTemplate ⟨"rB", none, none, none⟩)] 0 "A" "B" "hi" []
      ⟨["x"], []⟩ (constTemplate ⟨"rA", some "B", none, none⟩)
      (constTemplate ⟨"rB", none, none, none⟩)
      ⟨"rA", some "B", none, none⟩ ⟨"rB", none, none, none⟩
      "chat-output" "chat-response" "chat-output" "chat-response"
      (by decide) rfl rfl rfl (by decide) (by decide) rfl rfl rfl rfl rfl⟩

end Template
